import Mathlib

/-!
Verification of the IoT state skill (`private_assistant_iot_state_skill`).

This file gives a shallow embedding, in Lean, of the request-to-answer
pipeline implemented in `src/private_assistant_iot_state_skill/iot_state_skill.py`:

* the enumerations `DeviceType`, `Action`, `StateFilter` and the `Parameters`
  model;
* `get_parameters` (intent parameter extraction, including the
  `_extract_state_filter_from_text` helper);
* `get_device_states` (the TimescaleDB query: device-type, recency and room
  filters, `row_number`-based latest-per-device selection, state filtering,
  and the payload-to-state rendering loop), with the database modelled as a
  list of `IoTData` rows and the SQL window-function semantics modelled as a
  deterministic function on that list;
* `get_answer` (template dispatch with its fixed fallback string) and the
  `state_query.j2` response template (modelled from the spec, see below).

Theorems about these definitions settle the frozen claims C1 to C10.
-/

namespace IoTSkill

/-- Device type enumeration from `iot_state_skill.py` (`class DeviceType`).
The sole member WINDOW carries the database identifier `"window_sensor"`. -/
inductive DeviceType
  | WINDOW
deriving DecidableEq

/-- The persisted identifier of a device type (the Python enum `.value`). -/
def DeviceType.value : DeviceType → String
  | .WINDOW => "window_sensor"

/-- Skill action enumeration (`class Action`). -/
inductive Action
  | STATE_QUERY
deriving DecidableEq

/-- State filter enumeration (`class StateFilter`). -/
inductive StateFilter
  | ALL
  | OPEN
  | CLOSED
deriving DecidableEq

/-- Query parameters (`class Parameters`).  `states` holds the query results
as (device_name, room, state) triples, the Python `list[tuple]`. -/
structure Parameters where
  action : Action := Action.STATE_QUERY
  device_type : DeviceType
  rooms : List String := []
  state_filter : StateFilter := StateFilter.ALL
  states : List (String × String × String) := []
deriving DecidableEq

/-- A structured entity attached to a classified intent (the
`private_assistant_commons` `Entity`; the skill only reads
`normalized_value`, `raw_text` is kept for completeness and the float
`confidence` field, never read by the skill, is omitted). -/
structure Entity where
  raw_text : String := ""
  normalized_value : String
deriving DecidableEq

/-- The classified intent: a map from entity-category names (such as
`"device"` and `"room"`) to entity lists, plus the raw request text.
The Python `dict` is modelled as an association list. -/
structure ClassifiedIntent where
  entities : List (String × List Entity)
  raw_text : String
deriving DecidableEq

/-- The client request; the skill only reads the originating `room`. -/
structure ClientRequest where
  room : String
deriving DecidableEq

/-- An intent request bundling the classified intent and client request. -/
structure IntentRequest where
  classified_intent : ClassifiedIntent
  client_request : ClientRequest
deriving DecidableEq

/-- Errors raised by the skill.  `NoDeviceTypeFound` models the
`ValueError("No valid device type found in request")` raised by
`get_parameters`. -/
inductive SkillError
  | NoDeviceTypeFound
deriving DecidableEq

/-- `entities.get(key, [])` on the entity map: first matching key, else `[]`. -/
def lookupEntities (m : List (String × List Entity)) (k : String) : List Entity :=
  match m.find? (fun p => p.1 == k) with
  | some p => p.2
  | none => []

/-- The keyword table `device_type_map` from `IoTStateSkill.__init__`. -/
def device_type_map : List (String × DeviceType) :=
  [("window", DeviceType.WINDOW), ("windows", DeviceType.WINDOW)]

/-- `word in device_type_map` / `device_type_map[word]` as a single lookup. -/
def dtLookup (w : String) : Option DeviceType :=
  (device_type_map.find? (fun p => p.1 == w)).map (fun p => p.2)

/-- Helper for `tokens`: split a character list on whitespace runs, dropping
empty pieces; `acc` holds the in-progress word, reversed. -/
def splitWsAux : List Char → List Char → List String
  | acc, [] => if acc.isEmpty then [] else [String.mk acc.reverse]
  | acc, c :: cs =>
    if c.isWhitespace then
      (if acc.isEmpty then [] else [String.mk acc.reverse]) ++ splitWsAux [] cs
    else splitWsAux (c :: acc) cs

/-- Python `raw_text.lower().split()`: lowercase, then split on whitespace
runs with empty pieces discarded (modelled character-wise so that it is
structurally recursive). -/
def tokens (s : String) : List String :=
  splitWsAux [] (s.data.map Char.toLower)

/-- `IoTStateSkill._extract_state_filter_from_text`: OPEN if `"open"` is a
word of the lowered text, else CLOSED if `"closed"` is, else ALL. -/
def extract_state_filter_from_text (raw_text : String) : StateFilter :=
  let text_words := tokens raw_text
  if text_words.contains "open" then StateFilter.OPEN
  else if text_words.contains "closed" then StateFilter.CLOSED
  else StateFilter.ALL

/-- `IoTStateSkill.get_parameters`: device type from the first matching
device entity, falling back to the first matching raw-text token, error if
neither matches; rooms from room entities or else the client request room;
state filter from the raw text. -/
def get_parameters (intent_request : IntentRequest) : Except SkillError Parameters :=
  let classified_intent := intent_request.classified_intent
  let client_request := intent_request.client_request
  let device_entities := lookupEntities classified_intent.entities "device"
  let entity_device := device_entities.findSome? (fun e => dtLookup e.normalized_value)
  let device_type :=
    match entity_device with
    | some dt => some dt
    | none => (tokens classified_intent.raw_text).findSome? dtLookup
  match device_type with
  | none => Except.error SkillError.NoDeviceTypeFound
  | some dt =>
    let room_entities := lookupEntities classified_intent.entities "room"
    let rooms :=
      if room_entities.isEmpty then [client_request.room]
      else room_entities.map (fun e => e.normalized_value)
    Except.ok
      { device_type := dt
        rooms := rooms
        state_filter := extract_state_filter_from_text classified_intent.raw_text }

/-- A row of the external time-series store (`mqtt_ingest_pipeline`'s
`IoTData` as used by the query: `device_id`, `device_name`, `device_type`,
`room`, `time`, `payload`).  `time` is a timestamp in seconds; the JSON
`payload` is modelled as an association list of boolean fields, enough for
the single `contact` flag the skill reads. -/
structure IoTData where
  device_id : Nat
  device_name : String
  device_type : String
  room : String
  time : Int
  payload : List (String × Bool)
deriving DecidableEq

/-- JSON field access on a payload: `some` value of the first binding of
the key, `none` when the key is absent (SQL `payload["contact"]` is NULL). -/
def payloadGet (p : List (String × Bool)) (k : String) : Option Bool :=
  match p.find? (fun kv => kv.1 == k) with
  | some kv => some kv.2
  | none => none

/-- `room.replace(" ", "_")` from `get_device_states`: with a one-character
pattern and replacement, Python `str.replace` is a character-wise map. -/
def normalizeRoom (room : String) : String :=
  String.mk (room.data.map (fun c => if c = ' ' then '_' else c))

/-- `timedelta(days=2)` in seconds. -/
def twoDays : Int := 2 * 86400

/-- The conjunction of the three `WHERE` clauses of the subquery in
`get_device_states`: device-type match, recency
(`time > datetime.now() - timedelta(days=2)`), and room membership in the
normalized room list (SQL `IN`, which matches nothing on an empty list). -/
def eligiblePred (params : Parameters) (now : Int) (o : IoTData) : Bool :=
  o.device_type == params.device_type.value
    && decide (now - twoDays < o.time)
    && (params.rooms.map normalizeRoom).contains o.room

/-- Fold computing the row of maximal `time`, seeded with `a`; a strictly
later row replaces the current best, so on equal times the earlier row
wins. -/
def maxByTime (a : IoTData) (l : List IoTData) : IoTData :=
  l.foldl (fun x y => if y.time > x.time then y else x) a

/-- The rows with `row_number() over (partition by device_id order by time
desc) = 1`: one row per `device_id`, of maximal `time` within its
partition.  SQL fixes neither the tie-break among equal times nor the
output order; this model breaks ties towards the earlier row and emits
devices in order of first appearance.  `seen` accumulates the device ids
already emitted. -/
def selectLatestAux (seen : List Nat) : List IoTData → List IoTData
  | [] => []
  | o :: rest =>
    if seen.contains o.device_id then selectLatestAux seen rest
    else
      maxByTime o (rest.filter (fun x => x.device_id == o.device_id))
        :: selectLatestAux (o.device_id :: seen) rest

/-- Latest row per device among the given rows. -/
def selectLatest (l : List IoTData) : List IoTData :=
  selectLatestAux [] l

/-- The per-row rendering of the Python result loop:
`payload.get("contact", False)`, then `"closed" if contact else "open"`. -/
def renderState (o : IoTData) : String :=
  if (payloadGet o.payload "contact").getD false then "closed" else "open"

/-- `IoTStateSkill.get_device_states`, with the database passed in as the
list of rows `db` and the clock as `now`.  Mirrors the query: the subquery
filters by device type, recency and normalized rooms and ranks rows per
device by descending time; the outer query keeps rank-1 rows, applies the
state filter (`payload["contact"].astext == str(is_closed).lower()`, which
rejects rows whose payload lacks the key) when the filter is not ALL; the
Python loop then renders each row to (device_name, room, state). -/
def get_device_states (db : List IoTData) (now : Int) (params : Parameters) :
    List (String × String × String) :=
  let elig := db.filter (eligiblePred params now)
  let latest := selectLatest elig
  let filtered :=
    if params.state_filter ≠ StateFilter.ALL then
      let is_closed : Bool := params.state_filter ≠ StateFilter.OPEN
      latest.filter (fun o => payloadGet o.payload "contact" == some is_closed)
    else latest
  filtered.map (fun o => (o.device_name, o.room, renderState o))

/-- The inverse translation applied by the response template when showing a
storage room name: underscores back to spaces. -/
def displayRoom (room : String) : String :=
  String.mk (room.data.map (fun c => if c = '_' then ' ' else c))

/-- One output line per result row, as asserted by
`tests/test_templates.py`: the room is shown in display form. -/
def lineFor (s : String × String × String) : String :=
  "The " ++ s.1 ++ " in room " ++ displayRoom s.2.1 ++ " is " ++ s.2.2 ++ "."

/-- Modelled from the spec: the Jinja2 template `state_query.j2` referenced
by `_load_templates` is not present in the source tree (only
`tests/test_templates.py` asserts its output).  Per the spec's Response
Composer contract: one line per result joined by newline when `states` is
non-empty, otherwise a no-entries message naming the comma-joined rooms
when `rooms` is non-empty, otherwise the bare no-entries message; the room
of a result row is echoed in display form (underscore to space), matching
the repository's template tests. -/
def state_query_template (params : Parameters) : String :=
  if params.states.isEmpty then
    if params.rooms.isEmpty then "No database entries were found."
    else "No database entries were found for " ++ String.intercalate ", " params.rooms ++ "."
  else
    String.intercalate "\n" (params.states.map lineFor)

/-- `IoTStateSkill.get_answer`: look the action up in `action_to_template`
(modelled as a function to `Option`, the `dict.get`), render on a hit, and
degrade to the fixed apology string when no template is registered. -/
def get_answer (action_to_template : Action → Option (Parameters → String))
    (params : Parameters) : String :=
  match action_to_template params.action with
  | some template => template params
  | none => "Sorry, I couldn't process your request"

/-- The spec's state-filter predicate on a selected observation: ALL keeps
everything, CLOSED keeps `contact == true`, OPEN keeps `contact == false`. -/
def matchesFilter (sf : StateFilter) (o : IoTData) : Prop :=
  match sf with
  | StateFilter.ALL => True
  | StateFilter.CLOSED => payloadGet o.payload "contact" = some true
  | StateFilter.OPEN => payloadGet o.payload "contact" = some false

/-! Sample data, used to evaluate the definitions on concrete inputs. -/

/-- A request with a device entity and a room entity, the spec's Scenario A. -/
def reqBedroomClosed : IntentRequest :=
  { classified_intent :=
      { entities := [("device", [{ raw_text := "windows", normalized_value := "windows" }]),
                     ("room", [{ raw_text := "bedroom", normalized_value := "bedroom" }])]
        raw_text := "Show me closed windows in the bedroom" }
    client_request := { room := "living room" } }

/-- A request with a device entity but no room entity. -/
def reqOpenWindows : IntentRequest :=
  { classified_intent :=
      { entities := [("device", [{ raw_text := "windows", normalized_value := "windows" }])]
        raw_text := "Are there any open windows?" }
    client_request := { room := "kitchen" } }

/-- A request mentioning no supported device type at all. -/
def reqNoDevice : IntentRequest :=
  { classified_intent := { entities := [], raw_text := "Show me the status" }
    client_request := { room := "kitchen" } }

/-- A fresh open window sensor reading in the living room. -/
def rowLiv : IoTData :=
  { device_id := 1, device_name := "left window", device_type := "window_sensor",
    room := "living_room", time := 100000, payload := [("contact", false)] }

/-- An older reading of the same device as `rowLiv`. -/
def rowLivOld : IoTData :=
  { device_id := 1, device_name := "left window", device_type := "window_sensor",
    room := "living_room", time := 50000, payload := [("contact", true)] }

/-- A fresh closed window sensor reading in the bedroom. -/
def rowBed : IoTData :=
  { device_id := 2, device_name := "right window", device_type := "window_sensor",
    room := "bedroom", time := 90000, payload := [("contact", true)] }

/-- A fresh reading whose payload lacks the `contact` key. -/
def rowNoContact : IoTData :=
  { device_id := 3, device_name := "attic window", device_type := "window_sensor",
    room := "attic", time := 95000, payload := [] }

/-- Query over two rooms with no state filter. -/
def paramsTwoRooms : Parameters :=
  { device_type := DeviceType.WINDOW, rooms := ["living room", "bedroom"] }

/-- Query over the attic with no state filter. -/
def paramsAttic : Parameters :=
  { device_type := DeviceType.WINDOW, rooms := ["attic"] }

/-- Query with an empty room list. -/
def paramsNoRooms : Parameters :=
  { device_type := DeviceType.WINDOW, rooms := [] }

/-- The parameters extracted from `reqBedroomClosed`. -/
def paramsBedroomClosed : Parameters :=
  { device_type := DeviceType.WINDOW, rooms := ["bedroom"],
    state_filter := StateFilter.CLOSED }

/-- The parameters extracted from `reqOpenWindows`. -/
def paramsOpenKitchen : Parameters :=
  { device_type := DeviceType.WINDOW, rooms := ["kitchen"],
    state_filter := StateFilter.OPEN }

/-- Parameters carrying the two-room result set of the spec's Scenario B,
as fed to the response template. -/
def paramsWithStates : Parameters :=
  { device_type := DeviceType.WINDOW, rooms := ["living room", "bedroom"],
    states := [("left window", "living_room", "open"),
               ("right window", "bedroom", "closed")] }

/-- Parameters with no results over two rooms (spec Scenario C shape). -/
def paramsNoResults : Parameters :=
  { device_type := DeviceType.WINDOW, rooms := ["kitchen", "bathroom"] }

/-! Helper lemmas on `maxByTime`. -/

theorem maxByTime_cons (a y : IoTData) (l : List IoTData) :
    maxByTime a (y :: l) = maxByTime (if y.time > a.time then y else a) l := rfl

theorem maxByTime_mem (l : List IoTData) :
    ∀ a : IoTData, maxByTime a l = a ∨ maxByTime a l ∈ l := by
  induction l with
  | nil => intro a; exact Or.inl rfl
  | cons y l ih =>
    intro a
    rw [maxByTime_cons]
    rcases ih (if y.time > a.time then y else a) with h | h
    · rw [h]
      split
      · exact Or.inr (List.mem_cons_self _ _)
      · exact Or.inl rfl
    · exact Or.inr (List.mem_cons_of_mem _ h)

theorem le_maxByTime_seed (l : List IoTData) :
    ∀ a : IoTData, a.time ≤ (maxByTime a l).time := by
  induction l with
  | nil => intro a; exact le_refl _
  | cons y l ih =>
    intro a
    rw [maxByTime_cons]
    refine le_trans ?_ (ih (if y.time > a.time then y else a))
    split
    · next h => exact le_of_lt h
    · exact le_refl _

theorem le_maxByTime_mem (l : List IoTData) :
    ∀ a : IoTData, ∀ y ∈ l, y.time ≤ (maxByTime a l).time := by
  induction l with
  | nil => intro a y hy; cases hy
  | cons z l ih =>
    intro a y hy
    rw [maxByTime_cons]
    rcases List.mem_cons.mp hy with rfl | hy
    · refine le_trans ?_ (le_maxByTime_seed l _)
      split
      · exact le_refl _
      · next h => exact not_lt.mp h
    · exact ih _ y hy

theorem mem_filter_device {o x : IoTData} {l : List IoTData}
    (h : x ∈ l.filter (fun y => y.device_id == o.device_id)) :
    x ∈ l ∧ x.device_id = o.device_id := by
  have h2 := List.mem_filter.mp h
  exact ⟨h2.1, by simpa using h2.2⟩

theorem maxByTime_group_mem (o : IoTData) (rest : List IoTData) :
    maxByTime o (rest.filter (fun y => y.device_id == o.device_id)) ∈ o :: rest := by
  rcases maxByTime_mem (rest.filter (fun y => y.device_id == o.device_id)) o with h | h
  · rw [h]; exact List.mem_cons_self _ _
  · exact List.mem_cons_of_mem _ (mem_filter_device h).1

theorem maxByTime_group_device (o : IoTData) (rest : List IoTData) :
    (maxByTime o (rest.filter (fun y => y.device_id == o.device_id))).device_id = o.device_id := by
  rcases maxByTime_mem (rest.filter (fun y => y.device_id == o.device_id)) o with h | h
  · rw [h]
  · exact (mem_filter_device h).2

theorem maxByTime_group_ge (o : IoTData) (rest : List IoTData) :
    ∀ y ∈ o :: rest, y.device_id = o.device_id →
      y.time ≤ (maxByTime o (rest.filter (fun z => z.device_id == o.device_id))).time := by
  intro y hy hdev
  rcases List.mem_cons.mp hy with rfl | hy
  · exact le_maxByTime_seed _ _
  · refine le_maxByTime_mem _ _ y ?_
    exact List.mem_filter.mpr ⟨hy, by simpa using hdev⟩

/-! Helper lemmas on `selectLatestAux` and `selectLatest`. -/

theorem selectLatestAux_nil (seen : List Nat) : selectLatestAux seen [] = [] := rfl

theorem selectLatestAux_cons (seen : List Nat) (o : IoTData) (rest : List IoTData) :
    selectLatestAux seen (o :: rest) =
      if seen.contains o.device_id then selectLatestAux seen rest
      else maxByTime o (rest.filter (fun x => x.device_id == o.device_id))
        :: selectLatestAux (o.device_id :: seen) rest := rfl

theorem mem_of_mem_selectLatestAux {x : IoTData} :
    ∀ (l : List IoTData) (seen : List Nat), x ∈ selectLatestAux seen l → x ∈ l := by
  intro l
  induction l with
  | nil => intro seen h; cases h
  | cons o rest ih =>
    intro seen h
    rw [selectLatestAux_cons] at h
    by_cases hc : seen.contains o.device_id
    · rw [if_pos hc] at h
      exact List.mem_cons_of_mem _ (ih seen h)
    · rw [if_neg hc] at h
      rcases List.mem_cons.mp h with rfl | h2
      · exact maxByTime_group_mem o rest
      · exact List.mem_cons_of_mem _ (ih _ h2)

theorem devid_not_seen_of_mem_selectLatestAux {x : IoTData} :
    ∀ (l : List IoTData) (seen : List Nat), x ∈ selectLatestAux seen l →
      x.device_id ∉ seen := by
  intro l
  induction l with
  | nil => intro seen h; cases h
  | cons o rest ih =>
    intro seen h
    rw [selectLatestAux_cons] at h
    by_cases hc : seen.contains o.device_id
    · rw [if_pos hc] at h
      exact ih seen h
    · rw [if_neg hc] at h
      rcases List.mem_cons.mp h with rfl | h2
      · rw [maxByTime_group_device o rest]
        intro hmem
        exact hc (by simpa using hmem)
      · intro hmem
        exact ih _ h2 (List.mem_cons_of_mem _ hmem)

theorem time_max_of_mem_selectLatestAux {x : IoTData} :
    ∀ (l : List IoTData) (seen : List Nat), x ∈ selectLatestAux seen l →
      ∀ y ∈ l, y.device_id = x.device_id → y.time ≤ x.time := by
  intro l
  induction l with
  | nil => intro seen h; cases h
  | cons o rest ih =>
    intro seen h y hy hdev
    rw [selectLatestAux_cons] at h
    by_cases hc : seen.contains o.device_id
    · rw [if_pos hc] at h
      rcases List.mem_cons.mp hy with rfl | hy2
      · -- y = o is impossible for the same device: o.device_id is in seen,
        -- x.device_id is not
        have hx := devid_not_seen_of_mem_selectLatestAux rest seen h
        rw [← hdev] at hx
        exact absurd (by simpa using hc) hx
      · exact ih seen h y hy2 hdev
    · rw [if_neg hc] at h
      rcases List.mem_cons.mp h with rfl | h2
      · have hdev2 : y.device_id = o.device_id := by
          rw [hdev, maxByTime_group_device o rest]
        exact maxByTime_group_ge o rest y hy hdev2
      · rcases List.mem_cons.mp hy with rfl | hy2
        · have hx := devid_not_seen_of_mem_selectLatestAux rest _ h2
          rw [← hdev] at hx
          exact absurd (List.mem_cons_self _ _) hx
        · exact ih _ h2 y hy2 hdev

theorem mem_selectLatestAux_of_max {x : IoTData} :
    ∀ (l : List IoTData) (seen : List Nat),
      (∀ a ∈ l, ∀ b ∈ l, a.device_id = b.device_id → a.time = b.time → a = b) →
      x ∈ l → x.device_id ∉ seen →
      (∀ y ∈ l, y.device_id = x.device_id → y.time ≤ x.time) →
      x ∈ selectLatestAux seen l := by
  intro l
  induction l with
  | nil => intro seen _ hx; cases hx
  | cons o rest ih =>
    intro seen hdist hx hseen hmax
    rw [selectLatestAux_cons]
    by_cases hc : seen.contains o.device_id
    · rw [if_pos hc]
      have hxo : x ≠ o := by
        intro he
        exact hseen (by rw [he]; simpa using hc)
      have hx2 : x ∈ rest := (List.mem_cons.mp hx).resolve_left hxo
      refine ih seen ?_ hx2 hseen ?_
      · intro a ha b hb
        exact hdist a (List.mem_cons_of_mem _ ha) b (List.mem_cons_of_mem _ hb)
      · intro y hy
        exact hmax y (List.mem_cons_of_mem _ hy)
    · rw [if_neg hc]
      by_cases hdev : x.device_id = o.device_id
      · -- x is the unique maximal row of o's partition, so x is the emitted row
        have hm := maxByTime_group_mem o rest
        have hmdev := maxByTime_group_device o rest
        have h1 : (maxByTime o (rest.filter (fun z => z.device_id == o.device_id))).time
            ≤ x.time := by
          refine hmax _ hm ?_
          rw [hmdev, hdev]
        have h2 : x.time
            ≤ (maxByTime o (rest.filter (fun z => z.device_id == o.device_id))).time :=
          maxByTime_group_ge o rest x hx hdev
        have heq : x = maxByTime o (rest.filter (fun z => z.device_id == o.device_id)) :=
          hdist x hx _ hm (by rw [hdev, hmdev]) (le_antisymm h2 h1)
        rw [← heq]
        exact List.mem_cons_self _ _
      · have hxo : x ≠ o := by
          intro he
          exact hdev (by rw [he])
        have hx2 : x ∈ rest := (List.mem_cons.mp hx).resolve_left hxo
        refine List.mem_cons_of_mem _ (ih _ ?_ hx2 ?_ ?_)
        · intro a ha b hb
          exact hdist a (List.mem_cons_of_mem _ ha) b (List.mem_cons_of_mem _ hb)
        · intro hmem
          rcases List.mem_cons.mp hmem with h | h
          · exact hdev h
          · exact hseen h
        · intro y hy
          exact hmax y (List.mem_cons_of_mem _ hy)

theorem selectLatestAux_pairwise :
    ∀ (l : List IoTData) (seen : List Nat),
      (selectLatestAux seen l).Pairwise (fun a b => a.device_id ≠ b.device_id) := by
  intro l
  induction l with
  | nil => intro seen; exact List.Pairwise.nil
  | cons o rest ih =>
    intro seen
    rw [selectLatestAux_cons]
    by_cases hc : seen.contains o.device_id
    · rw [if_pos hc]; exact ih seen
    · rw [if_neg hc]
      refine List.pairwise_cons.mpr ⟨?_, ih _⟩
      intro b hb
      have hnb := devid_not_seen_of_mem_selectLatestAux rest _ hb
      rw [maxByTime_group_device o rest]
      intro he
      exact hnb (by rw [← he]; exact List.mem_cons_self _ _)

theorem exists_mem_selectLatestAux {x : IoTData} :
    ∀ (l : List IoTData) (seen : List Nat), x ∈ l → x.device_id ∉ seen →
      ∃ y ∈ selectLatestAux seen l, y.device_id = x.device_id := by
  intro l
  induction l with
  | nil => intro seen hx; cases hx
  | cons o rest ih =>
    intro seen hx hseen
    rw [selectLatestAux_cons]
    by_cases hc : seen.contains o.device_id
    · rw [if_pos hc]
      have hxo : x ≠ o := by
        intro he
        exact hseen (by rw [he]; simpa using hc)
      exact ih seen ((List.mem_cons.mp hx).resolve_left hxo) hseen
    · rw [if_neg hc]
      by_cases hdev : x.device_id = o.device_id
      · refine ⟨maxByTime o (rest.filter (fun z => z.device_id == o.device_id)),
          List.mem_cons_self _ _, ?_⟩
        rw [maxByTime_group_device o rest, hdev]
      · have hxo : x ≠ o := by
          intro he
          exact hdev (by rw [he])
        have hx2 : x ∈ rest := (List.mem_cons.mp hx).resolve_left hxo
        have hseen2 : x.device_id ∉ o.device_id :: seen := by
          intro hmem
          rcases List.mem_cons.mp hmem with h | h
          · exact hdev h
          · exact hseen h
        obtain ⟨y, hy, hyd⟩ := ih _ hx2 hseen2
        exact ⟨y, List.mem_cons_of_mem _ hy, hyd⟩

theorem mem_of_mem_selectLatest {x : IoTData} {l : List IoTData}
    (h : x ∈ selectLatest l) : x ∈ l :=
  mem_of_mem_selectLatestAux l [] h

theorem mem_selectLatest_iff (l : List IoTData)
    (hdist : ∀ a ∈ l, ∀ b ∈ l, a.device_id = b.device_id → a.time = b.time → a = b)
    (x : IoTData) :
    x ∈ selectLatest l ↔
      x ∈ l ∧ ∀ y ∈ l, y.device_id = x.device_id → y.time ≤ x.time := by
  constructor
  · intro h
    exact ⟨mem_of_mem_selectLatestAux l [] h, time_max_of_mem_selectLatestAux l [] h⟩
  · intro h
    exact mem_selectLatestAux_of_max l [] hdist h.1 (by simp) h.2

theorem selectLatest_pairwise (l : List IoTData) :
    (selectLatest l).Pairwise (fun a b => a.device_id ≠ b.device_id) :=
  selectLatestAux_pairwise l []

theorem selectLatest_cover {x : IoTData} {l : List IoTData} (h : x ∈ l) :
    ∃ y ∈ selectLatest l, y.device_id = x.device_id :=
  exists_mem_selectLatestAux l [] h (by simp)

/-! Claim theorems. -/

/-- C9: for every `Parameters` whose action has no registered formatting
resource, `get_answer` returns the fixed fallback string (and, being a
total function, does not raise). -/
theorem get_answer_missing_template_fallback
    (action_to_template : Action → Option (Parameters → String)) (params : Parameters)
    (h : action_to_template params.action = none) :
    get_answer action_to_template params = "Sorry, I couldn't process your request" := by
  simp [get_answer, h]

/-- C9 witness: the empty template registry yields the fallback string. -/
theorem get_answer_missing_template_fallback_witness :
    get_answer (fun _ => none) { device_type := DeviceType.WINDOW } =
      "Sorry, I couldn't process your request" :=
  get_answer_missing_template_fallback (fun _ => none)
    { device_type := DeviceType.WINDOW } rfl

/-- C7: with non-empty results the composed answer is one line per result
in order, joined by newlines; with empty results and non-empty rooms it
names the comma-and-space-joined rooms; with empty results and empty rooms
it is the bare no-entries message. -/
theorem compose_answer_cases (params : Parameters) :
    (params.states ≠ [] →
      state_query_template params =
        String.intercalate "\n" (params.states.map (fun s =>
          "The " ++ s.1 ++ " in room " ++ displayRoom s.2.1 ++ " is " ++ s.2.2 ++ "."))) ∧
    (params.states = [] → params.rooms ≠ [] →
      state_query_template params =
        "No database entries were found for " ++
          String.intercalate ", " params.rooms ++ ".") ∧
    (params.states = [] → params.rooms = [] →
      state_query_template params = "No database entries were found.") := by
  refine ⟨?_, ?_, ?_⟩
  · intro h
    simp [state_query_template, h]
    rfl
  · intro h1 h2
    simp [state_query_template, h1, h2]
  · intro h1 h2
    simp [state_query_template, h1, h2]

/-- C7 witness: the three template branches on concrete parameters,
matching the repository's template tests. -/
theorem compose_answer_cases_witness :
    state_query_template paramsWithStates =
      "The left window in room living room is open.\nThe right window in room bedroom is closed." ∧
    state_query_template paramsNoResults =
      "No database entries were found for kitchen, bathroom." ∧
    state_query_template paramsNoRooms = "No database entries were found." :=
  ⟨((compose_answer_cases paramsWithStates).1 (by decide)).trans (by decide),
   ((compose_answer_cases paramsNoResults).2.1 rfl (by decide)).trans (by decide),
   (compose_answer_cases paramsNoRooms).2.2 rfl rfl⟩

/-- C8: for a user room name free of underscores, the storage normalization
(spaces to underscores) is reversed by the display translation, and the
rendered line shows the user's room name, not the storage key. -/
theorem room_roundtrip (room : String) (h : ∀ c ∈ room.data, c ≠ '_') :
    displayRoom (normalizeRoom room) = room ∧
    ∀ device_name st : String,
      lineFor (device_name, normalizeRoom room, st) =
        "The " ++ device_name ++ " in room " ++ room ++ " is " ++ st ++ "." := by
  have hd : displayRoom (normalizeRoom room) = room := by
    cases room with
    | mk data =>
      show String.mk ((data.map (fun c => if c = ' ' then '_' else c)).map
        (fun c => if c = '_' then ' ' else c)) = String.mk data
      rw [List.map_map]
      congr 1
      refine (List.map_congr_left ?_).trans (List.map_id data)
      intro c hc
      by_cases hsp : c = ' '
      · simp [hsp]
      · simp [Function.comp, hsp, h c hc]
  refine ⟨hd, ?_⟩
  intro device_name st
  simp only [lineFor]
  rw [hd]

/-- C8 witness: the room name "living room" survives the round trip and is
echoed verbatim in a rendered line. -/
theorem room_roundtrip_witness :
    displayRoom (normalizeRoom "living room") = "living room" ∧
    lineFor ("left window", normalizeRoom "living room", "open") =
      "The " ++ "left window" ++ " in room " ++ "living room" ++ " is " ++ "open" ++ "." :=
  ⟨(room_roundtrip "living room" (by decide)).1,
   (room_roundtrip "living room" (by decide)).2 "left window" "open"⟩

/-- C1 counterexample: with an empty rooms list, a fresh observation of the
matching device type is absent from the results even though it passes the
device-type and recency filters - the room filter (SQL `IN` over the empty
normalized room list) matches nothing, against the claim that an empty
rooms list applies no room restriction. -/
theorem empty_rooms_not_unrestricted :
    paramsNoRooms.rooms = [] ∧
    rowLiv.device_type = paramsNoRooms.device_type.value ∧
    150000 - twoDays < rowLiv.time ∧
    get_device_states [rowLiv] 150000 paramsNoRooms = [] := by
  refine ⟨rfl, rfl, by decide, by decide⟩

/-- C1 amended: when `params.rooms` is empty the room membership filter
rejects every observation, so `get_device_states` returns the empty list
regardless of the other filters. -/
theorem empty_rooms_empty_results (db : List IoTData) (now : Int) (params : Parameters)
    (h : params.rooms = []) : get_device_states db now params = [] := by
  have hel : db.filter (eligiblePred params now) = [] := by
    refine List.filter_eq_nil_iff.mpr ?_
    intro o _
    simp [eligiblePred, h]
  simp [get_device_states, hel, selectLatest, selectLatestAux_nil]

/-- C1 amended witness: a concrete empty-rooms query returns no results. -/
theorem empty_rooms_empty_results_witness :
    get_device_states [rowLiv] 150000 paramsNoRooms = [] :=
  empty_rooms_empty_results [rowLiv] 150000 paramsNoRooms rfl

/-- C6: every returned tuple stems from a stored observation inside the
2-day recency window, and an observation older than 2 days yields no
result even when it is the only observation of its device. -/
theorem recency_window (db : List IoTData) (now : Int) (params : Parameters) :
    (∀ t ∈ get_device_states db now params,
      ∃ o, o ∈ db ∧ now - twoDays < o.time ∧
        t = (o.device_name, o.room, renderState o)) ∧
    (∀ o : IoTData, o.time < now - twoDays →
      get_device_states [o] now params = []) := by
  constructor
  · intro t ht
    simp only [get_device_states] at ht
    rw [List.mem_map] at ht
    obtain ⟨o, ho, het⟩ := ht
    have ho2 : o ∈ selectLatest (db.filter (eligiblePred params now)) := by
      revert ho
      split
      · intro ho; exact (List.mem_filter.mp ho).1
      · intro ho; exact ho
    have ho4 := List.mem_filter.mp (mem_of_mem_selectLatest ho2)
    refine ⟨o, ho4.1, ?_, het.symm⟩
    have he := ho4.2
    simp only [eligiblePred, Bool.and_eq_true, decide_eq_true_eq] at he
    exact he.1.2
  · intro o ho
    have hn : ¬ (now - twoDays < o.time) := not_lt.mpr (le_of_lt ho)
    have hel : [o].filter (eligiblePred params now) = [] := by
      refine List.filter_eq_nil_iff.mpr ?_
      intro a ha
      have ha2 : a = o := by simpa using ha
      subst ha2
      simp [eligiblePred, hn]
    simp [get_device_states, hel, selectLatest, selectLatestAux_nil]

/-- C6 witness: the fresh two-room query result is traceable to in-window
observations, and a lone stale observation produces no result. -/
theorem recency_window_witness :
    (∃ o, o ∈ [rowLivOld, rowLiv, rowBed] ∧ 150000 - twoDays < o.time ∧
      (("left window", "living_room", "open") : String × String × String) =
        (o.device_name, o.room, renderState o)) ∧
    get_device_states [rowLivOld] (50000 + twoDays + 1) paramsTwoRooms = [] :=
  ⟨(recency_window [rowLivOld, rowLiv, rowBed] 150000 paramsTwoRooms).1
      ("left window", "living_room", "open") (by decide),
   (recency_window [rowLivOld] (50000 + twoDays + 1) paramsTwoRooms).2 rowLivOld
      (by decide)⟩

/-- C10: `get_device_states` is total on payloads lacking the `contact`
key: every returned tuple stems from a stored observation, and when that
observation's payload has no `contact` entry the reported state is
"open" (the flag defaults to false). -/
theorem missing_contact_reported_open (db : List IoTData) (now : Int) (params : Parameters) :
    ∀ t ∈ get_device_states db now params,
      ∃ o, o ∈ db ∧ t = (o.device_name, o.room, renderState o) ∧
        (payloadGet o.payload "contact" = none → t.2.2 = "open") := by
  intro t ht
  simp only [get_device_states] at ht
  rw [List.mem_map] at ht
  obtain ⟨o, ho, het⟩ := ht
  have ho2 : o ∈ selectLatest (db.filter (eligiblePred params now)) := by
    revert ho
    split
    · intro ho; exact (List.mem_filter.mp ho).1
    · intro ho; exact ho
  have ho4 := List.mem_filter.mp (mem_of_mem_selectLatest ho2)
  refine ⟨o, ho4.1, het.symm, ?_⟩
  intro hnone
  rw [← het]
  simp [renderState, hnone]

/-- C10 witness: a selected observation without a `contact` payload key is
reported, with state "open". -/
theorem missing_contact_reported_open_witness :
    ∃ o, o ∈ [rowNoContact] ∧
      (("attic window", "attic", "open") : String × String × String) =
        (o.device_name, o.room, renderState o) ∧
      (payloadGet o.payload "contact" = none →
        (("attic window", "attic", "open") : String × String × String).2.2 = "open") :=
  missing_contact_reported_open [rowNoContact] 150000 paramsAttic
    ("attic window", "attic", "open") (by decide)

theorem dtLookup_eq_none {w : String} (h1 : w ≠ "window") (h2 : w ≠ "windows") :
    dtLookup w = none := by
  have b1 : ("window" == w) = false := beq_eq_false_iff_ne.mpr (Ne.symm h1)
  have b2 : ("windows" == w) = false := beq_eq_false_iff_ne.mpr (Ne.symm h2)
  simp [dtLookup, device_type_map, List.find?, b1, b2]

/-- C3: when neither the device entities' normalized values nor the
lowercased whitespace-split tokens of the raw text contain a device-type
keyword ("window" or "windows"), `get_parameters` fails with
`NoDeviceTypeFound`; no device type is defaulted. -/
theorem no_device_type_error (intent_request : IntentRequest)
    (h1 : ∀ e ∈ lookupEntities intent_request.classified_intent.entities "device",
      e.normalized_value ≠ "window" ∧ e.normalized_value ≠ "windows")
    (h2 : ∀ w ∈ tokens intent_request.classified_intent.raw_text,
      w ≠ "window" ∧ w ≠ "windows") :
    get_parameters intent_request = Except.error SkillError.NoDeviceTypeFound := by
  have e1 : (lookupEntities intent_request.classified_intent.entities "device").findSome?
      (fun e => dtLookup e.normalized_value) = none :=
    List.findSome?_eq_none_iff.mpr (fun e he => dtLookup_eq_none (h1 e he).1 (h1 e he).2)
  have e2 : (tokens intent_request.classified_intent.raw_text).findSome? dtLookup = none :=
    List.findSome?_eq_none_iff.mpr (fun w hw => dtLookup_eq_none (h2 w hw).1 (h2 w hw).2)
  simp [get_parameters, e1, e2]

/-- C3 witness: a request naming no supported device fails. -/
theorem no_device_type_error_witness :
    get_parameters reqNoDevice = Except.error SkillError.NoDeviceTypeFound :=
  no_device_type_error reqNoDevice (by decide) (by decide)

/-- C4: the extracted state filter is OPEN exactly when "open" is a
lowercased whitespace-split token of the raw text, CLOSED exactly when
"closed" is such a token and "open" is not, ALL exactly when neither is;
and for every successfully parsed request the state filter is computed
from the raw text alone. -/
theorem state_filter_from_text_characterization :
    (∀ raw_text : String,
      (extract_state_filter_from_text raw_text = StateFilter.OPEN ↔
        "open" ∈ tokens raw_text) ∧
      (extract_state_filter_from_text raw_text = StateFilter.CLOSED ↔
        ("closed" ∈ tokens raw_text ∧ "open" ∉ tokens raw_text)) ∧
      (extract_state_filter_from_text raw_text = StateFilter.ALL ↔
        ("open" ∉ tokens raw_text ∧ "closed" ∉ tokens raw_text))) ∧
    (∀ (intent_request : IntentRequest) (params : Parameters),
      get_parameters intent_request = Except.ok params →
      params.state_filter =
        extract_state_filter_from_text intent_request.classified_intent.raw_text) := by
  constructor
  · intro raw_text
    by_cases ho : "open" ∈ tokens raw_text <;>
      by_cases hc : "closed" ∈ tokens raw_text <;>
        simp [extract_state_filter_from_text, List.contains, List.elem_iff, ho, hc]
  · intro intent_request params h
    simp only [get_parameters] at h
    split at h
    · exact Except.noConfusion h
    · injection h with h2
      subst h2
      rfl

/-- C4 witness: a concrete closed-window request yields the CLOSED filter,
characterized by its tokens, and the parsed parameters carry that
text-derived filter. -/
theorem state_filter_from_text_characterization_witness :
    (extract_state_filter_from_text "Show me closed windows in the bedroom" =
        StateFilter.CLOSED ↔
      ("closed" ∈ tokens "Show me closed windows in the bedroom" ∧
        "open" ∉ tokens "Show me closed windows in the bedroom")) ∧
    paramsBedroomClosed.state_filter =
      extract_state_filter_from_text reqBedroomClosed.classified_intent.raw_text :=
  ⟨(state_filter_from_text_characterization.1 "Show me closed windows in the bedroom").2.1,
   state_filter_from_text_characterization.2 reqBedroomClosed paramsBedroomClosed rfl⟩

/-- C5: for every successfully parsed request, the rooms are the room
entities' normalized values in order when room entities are present, and
the single-element list holding the originating room otherwise. -/
theorem rooms_resolution (intent_request : IntentRequest) (params : Parameters)
    (h : get_parameters intent_request = Except.ok params) :
    (lookupEntities intent_request.classified_intent.entities "room" ≠ [] →
      params.rooms =
        (lookupEntities intent_request.classified_intent.entities "room").map
          (fun e => e.normalized_value)) ∧
    (lookupEntities intent_request.classified_intent.entities "room" = [] →
      params.rooms = [intent_request.client_request.room]) := by
  simp only [get_parameters] at h
  split at h
  · exact Except.noConfusion h
  · injection h with h2
    subst h2
    constructor
    · intro hne
      have hb : (lookupEntities intent_request.classified_intent.entities "room").isEmpty
          = false := by
        cases hb2 : (lookupEntities intent_request.classified_intent.entities "room").isEmpty
        · rfl
        · exact absurd (List.isEmpty_iff.mp hb2) hne
      simp [hb]
    · intro he
      simp [he]

/-- C5 witness: the room entity overrides the ambient room, and without a
room entity the ambient room is used. -/
theorem rooms_resolution_witness :
    paramsBedroomClosed.rooms =
      (lookupEntities reqBedroomClosed.classified_intent.entities "room").map
        (fun e => e.normalized_value) ∧
    paramsOpenKitchen.rooms = [reqOpenWindows.client_request.room] :=
  ⟨(rooms_resolution reqBedroomClosed paramsBedroomClosed rfl).1 (by decide),
   (rooms_resolution reqOpenWindows paramsOpenKitchen rfl).2 rfl⟩

/-- C2: when eligible observations of the same device have distinct times,
a tuple is returned exactly when it renders an eligible observation that
is latest for its device and passes the state filter (CLOSED keeps
`contact = true`, OPEN keeps `contact = false`, applied after
latest-per-device selection), with the reported state always derived from
that observation's contact flag; moreover the latest-per-device selection
picks at most one observation per device and covers every device with an
eligible observation. -/
theorem latest_per_device_characterization
    (db : List IoTData) (now : Int) (params : Parameters)
    (hdist : ∀ a ∈ db.filter (eligiblePred params now),
      ∀ b ∈ db.filter (eligiblePred params now),
      a.device_id = b.device_id → a.time = b.time → a = b) :
    (∀ t, t ∈ get_device_states db now params ↔
      ∃ o, o ∈ db.filter (eligiblePred params now) ∧
        (∀ y ∈ db.filter (eligiblePred params now),
          y.device_id = o.device_id → y.time ≤ o.time) ∧
        matchesFilter params.state_filter o ∧
        t = (o.device_name, o.room, renderState o)) ∧
    (selectLatest (db.filter (eligiblePred params now))).Pairwise
      (fun a b => a.device_id ≠ b.device_id) ∧
    (∀ o ∈ db.filter (eligiblePred params now),
      ∃ y ∈ selectLatest (db.filter (eligiblePred params now)),
        y.device_id = o.device_id) := by
  refine ⟨?_, selectLatest_pairwise _, fun o ho => selectLatest_cover ho⟩
  intro t
  obtain ⟨act, dt, rooms, sf, sts⟩ := params
  simp only [get_device_states]
  cases sf with
  | ALL =>
    simp only [ne_eq, not_true_eq_false, if_neg, reduceIte, List.mem_map]
    constructor
    · rintro ⟨o, ho, rfl⟩
      have h2 := (mem_selectLatest_iff _ hdist o).mp ho
      exact ⟨o, h2.1, h2.2, trivial, rfl⟩
    · rintro ⟨o, ho, hmax, _, rfl⟩
      exact ⟨o, (mem_selectLatest_iff _ hdist o).mpr ⟨ho, hmax⟩, rfl⟩
  | OPEN =>
    rw [if_pos (by decide)]
    simp only [List.mem_map,
      show decide (StateFilter.OPEN ≠ StateFilter.OPEN) = false from rfl]
    constructor
    · rintro ⟨o, ho, rfl⟩
      obtain ⟨ho1, hp⟩ := List.mem_filter.mp ho
      have h2 := (mem_selectLatest_iff _ hdist o).mp ho1
      refine ⟨o, h2.1, h2.2, ?_, rfl⟩
      simpa [matchesFilter] using hp
    · rintro ⟨o, ho, hmax, hmf, rfl⟩
      refine ⟨o, List.mem_filter.mpr
        ⟨(mem_selectLatest_iff _ hdist o).mpr ⟨ho, hmax⟩, ?_⟩, rfl⟩
      simpa [matchesFilter] using hmf
  | CLOSED =>
    rw [if_pos (by decide)]
    simp only [List.mem_map,
      show decide (StateFilter.CLOSED ≠ StateFilter.OPEN) = true from rfl]
    constructor
    · rintro ⟨o, ho, rfl⟩
      obtain ⟨ho1, hp⟩ := List.mem_filter.mp ho
      have h2 := (mem_selectLatest_iff _ hdist o).mp ho1
      refine ⟨o, h2.1, h2.2, ?_, rfl⟩
      simpa [matchesFilter] using hp
    · rintro ⟨o, ho, hmax, hmf, rfl⟩
      refine ⟨o, List.mem_filter.mpr
        ⟨(mem_selectLatest_iff _ hdist o).mpr ⟨ho, hmax⟩, ?_⟩, rfl⟩
      simpa [matchesFilter] using hmf

/-- C2 witness: on a concrete store holding an old and a new reading of one
device plus a reading of another, the returned tuple for the first device
is the render of its latest reading. -/
theorem latest_per_device_characterization_witness :
    ("left window", "living_room", "open") ∈
      get_device_states [rowLivOld, rowLiv, rowBed] 150000 paramsTwoRooms :=
  ((latest_per_device_characterization [rowLivOld, rowLiv, rowBed] 150000 paramsTwoRooms
      (by decide)).1 ("left window", "living_room", "open")).mpr
    ⟨rowLiv, by decide, by decide, trivial, by decide⟩

end IoTSkill
